import Mathlib

/-!
Verification of the aggregate-definition catalog `pg_aggregate.h` and the
aggregate execution contract described in its specification.

The catalog rows below are a direct transcription of the `DATA(insert (...))`
rows of `src/include/catalog/pg_aggregate.h`.  Function slots keep the
source's textual sentinels: `"-"` marks an absent function reference and
`"_null_"` marks an absent initial-value literal, exactly as in the DATA
lines.  Numeric columns are transcribed verbatim (OIDs as `Nat`, the signed
`int16`/`int32` columns as `Int`).
-/

set_option maxRecDepth 40000

/-- Symbolic value for the `aggkind` column: normal aggregate. -/
def AGGKIND_NORMAL : Char := 'n'

/-- Symbolic value for the `aggkind` column: ordered-set aggregate. -/
def AGGKIND_ORDERED_SET : Char := 'o'

/-- Symbolic value for the `aggkind` column: hypothetical-set aggregate. -/
def AGGKIND_HYPOTHETICAL : Char := 'h'

/-- Source macro `AGGKIND_IS_ORDERED_SET(kind)`: tests for
"ordered-set agg including hypothetical case", i.e. `kind != 'n'`. -/
def AGGKIND_IS_ORDERED_SET (kind : Char) : Bool :=
  kind != AGGKIND_NORMAL

/-- One row of the `pg_aggregate` catalog (`FormData_pg_aggregate`).
Function-reference columns (`regproc`) hold the function name from the DATA
row, with the source's placeholder `"-"` when the slot is empty; the two
initial-value text columns hold the literal, with `"_null_"` for NULL. -/
structure FormData_pg_aggregate where
  aggfnoid : Nat
  aggkind : Char
  aggnumdirectargs : Int
  aggtransfn : String
  aggfinalfn : String
  aggcombinefn : String
  aggserialfn : String
  aggdeserialfn : String
  aggmtransfn : String
  aggminvtransfn : String
  aggmfinalfn : String
  aggfinalextra : Bool
  aggmfinalextra : Bool
  aggsortop : Nat
  aggtranstype : Nat
  aggtransspace : Int
  aggmtranstype : Nat
  aggmtransspace : Int
  agginitval : String
  aggminitval : String
deriving DecidableEq

/-- A function-reference column is present when it is not the `-` placeholder. -/
def regprocPresent (f : String) : Bool := f != "-"

/-- An initial-value column is present when it is not the `_null_` marker. -/
def initvalPresent (v : String) : Bool := v != "_null_"

/-- DATA rows: avg. -/
def pg_aggregate_rows_avg : List FormData_pg_aggregate := [
  ⟨2100, 'n', 0, "int8_avg_accum", "numeric_poly_avg", "int8_avg_combine", "int8_avg_serialize", "int8_avg_deserialize", "int8_avg_accum", "int8_avg_accum_inv", "numeric_poly_avg", false, false, 0, 2281, 48, 2281, 48, "_null_", "_null_"⟩,
  ⟨2101, 'n', 0, "int4_avg_accum", "int8_avg", "int4_avg_combine", "-", "-", "int4_avg_accum", "int4_avg_accum_inv", "int8_avg", false, false, 0, 1016, 0, 1016, 0, "\x7b0,0\x7d", "\x7b0,0\x7d"⟩,
  ⟨2102, 'n', 0, "int2_avg_accum", "int8_avg", "int4_avg_combine", "-", "-", "int2_avg_accum", "int2_avg_accum_inv", "int8_avg", false, false, 0, 1016, 0, 1016, 0, "\x7b0,0\x7d", "\x7b0,0\x7d"⟩,
  ⟨2103, 'n', 0, "numeric_avg_accum", "numeric_avg", "numeric_avg_combine", "numeric_avg_serialize", "numeric_avg_deserialize", "numeric_avg_accum", "numeric_accum_inv", "numeric_avg", false, false, 0, 2281, 128, 2281, 128, "_null_", "_null_"⟩,
  ⟨2104, 'n', 0, "float4_accum", "float8_avg", "float8_combine", "-", "-", "-", "-", "-", false, false, 0, 1022, 0, 0, 0, "\x7b0,0,0\x7d", "_null_"⟩,
  ⟨2105, 'n', 0, "float8_accum", "float8_avg", "float8_combine", "-", "-", "-", "-", "-", false, false, 0, 1022, 0, 0, 0, "\x7b0,0,0\x7d", "_null_"⟩,
  ⟨2106, 'n', 0, "interval_accum", "interval_avg", "interval_combine", "-", "-", "interval_accum", "interval_accum_inv", "interval_avg", false, false, 0, 1187, 0, 1187, 0, "\x7b0 second,0 second\x7d", "\x7b0 second,0 second\x7d"⟩]

/-- DATA rows: sum. -/
def pg_aggregate_rows_sum : List FormData_pg_aggregate := [
  ⟨2107, 'n', 0, "int8_avg_accum", "numeric_poly_sum", "int8_avg_combine", "int8_avg_serialize", "int8_avg_deserialize", "int8_avg_accum", "int8_avg_accum_inv", "numeric_poly_sum", false, false, 0, 2281, 48, 2281, 48, "_null_", "_null_"⟩,
  ⟨2108, 'n', 0, "int4_sum", "-", "int8pl", "-", "-", "int4_avg_accum", "int4_avg_accum_inv", "int2int4_sum", false, false, 0, 20, 0, 1016, 0, "_null_", "\x7b0,0\x7d"⟩,
  ⟨2109, 'n', 0, "int2_sum", "-", "int8pl", "-", "-", "int2_avg_accum", "int2_avg_accum_inv", "int2int4_sum", false, false, 0, 20, 0, 1016, 0, "_null_", "\x7b0,0\x7d"⟩,
  ⟨2110, 'n', 0, "float4pl", "-", "float4pl", "-", "-", "-", "-", "-", false, false, 0, 700, 0, 0, 0, "_null_", "_null_"⟩,
  ⟨2111, 'n', 0, "float8pl", "-", "float8pl", "-", "-", "-", "-", "-", false, false, 0, 701, 0, 0, 0, "_null_", "_null_"⟩,
  ⟨2112, 'n', 0, "cash_pl", "-", "cash_pl", "-", "-", "cash_pl", "cash_mi", "-", false, false, 0, 790, 0, 790, 0, "_null_", "_null_"⟩,
  ⟨2113, 'n', 0, "interval_pl", "-", "interval_pl", "-", "-", "interval_pl", "interval_mi", "-", false, false, 0, 1186, 0, 1186, 0, "_null_", "_null_"⟩,
  ⟨2114, 'n', 0, "numeric_avg_accum", "numeric_sum", "numeric_avg_combine", "numeric_avg_serialize", "numeric_avg_deserialize", "numeric_avg_accum", "numeric_accum_inv", "numeric_sum", false, false, 0, 2281, 128, 2281, 128, "_null_", "_null_"⟩]

/-- DATA rows: max. -/
def pg_aggregate_rows_max : List FormData_pg_aggregate := [
  ⟨2115, 'n', 0, "int8larger", "-", "int8larger", "-", "-", "-", "-", "-", false, false, 413, 20, 0, 0, 0, "_null_", "_null_"⟩,
  ⟨2116, 'n', 0, "int4larger", "-", "int4larger", "-", "-", "-", "-", "-", false, false, 521, 23, 0, 0, 0, "_null_", "_null_"⟩,
  ⟨2117, 'n', 0, "int2larger", "-", "int2larger", "-", "-", "-", "-", "-", false, false, 520, 21, 0, 0, 0, "_null_", "_null_"⟩,
  ⟨2118, 'n', 0, "oidlarger", "-", "oidlarger", "-", "-", "-", "-", "-", false, false, 610, 26, 0, 0, 0, "_null_", "_null_"⟩,
  ⟨2119, 'n', 0, "float4larger", "-", "float4larger", "-", "-", "-", "-", "-", false, false, 623, 700, 0, 0, 0, "_null_", "_null_"⟩,
  ⟨2120, 'n', 0, "float8larger", "-", "float8larger", "-", "-", "-", "-", "-", false, false, 674, 701, 0, 0, 0, "_null_", "_null_"⟩,
  ⟨2121, 'n', 0, "int4larger", "-", "int4larger", "-", "-", "-", "-", "-", false, false, 563, 702, 0, 0, 0, "_null_", "_null_"⟩,
  ⟨2122, 'n', 0, "date_larger", "-", "date_larger", "-", "-", "-", "-", "-", false, false, 1097, 1082, 0, 0, 0, "_null_", "_null_"⟩,
  ⟨2123, 'n', 0, "time_larger", "-", "time_larger", "-", "-", "-", "-", "-", false, false, 1112, 1083, 0, 0, 0, "_null_", "_null_"⟩,
  ⟨2124, 'n', 0, "timetz_larger", "-", "timetz_larger", "-", "-", "-", "-", "-", false, false, 1554, 1266, 0, 0, 0, "_null_", "_null_"⟩,
  ⟨2125, 'n', 0, "cashlarger", "-", "cashlarger", "-", "-", "-", "-", "-", false, false, 903, 790, 0, 0, 0, "_null_", "_null_"⟩,
  ⟨2126, 'n', 0, "timestamp_larger", "-", "timestamp_larger", "-", "-", "-", "-", "-", false, false, 2064, 1114, 0, 0, 0, "_null_", "_null_"⟩,
  ⟨2127, 'n', 0, "timestamptz_larger", "-", "timestamptz_larger", "-", "-", "-", "-", "-", false, false, 1324, 1184, 0, 0, 0, "_null_", "_null_"⟩,
  ⟨2128, 'n', 0, "interval_larger", "-", "interval_larger", "-", "-", "-", "-", "-", false, false, 1334, 1186, 0, 0, 0, "_null_", "_null_"⟩,
  ⟨2129, 'n', 0, "text_larger", "-", "text_larger", "-", "-", "-", "-", "-", false, false, 666, 25, 0, 0, 0, "_null_", "_null_"⟩,
  ⟨2130, 'n', 0, "numeric_larger", "-", "numeric_larger", "-", "-", "-", "-", "-", false, false, 1756, 1700, 0, 0, 0, "_null_", "_null_"⟩,
  ⟨2050, 'n', 0, "array_larger", "-", "array_larger", "-", "-", "-", "-", "-", false, false, 1073, 2277, 0, 0, 0, "_null_", "_null_"⟩,
  ⟨2244, 'n', 0, "bpchar_larger", "-", "bpchar_larger", "-", "-", "-", "-", "-", false, false, 1060, 1042, 0, 0, 0, "_null_", "_null_"⟩,
  ⟨2797, 'n', 0, "tidlarger", "-", "tidlarger", "-", "-", "-", "-", "-", false, false, 2800, 27, 0, 0, 0, "_null_", "_null_"⟩,
  ⟨3526, 'n', 0, "enum_larger", "-", "enum_larger", "-", "-", "-", "-", "-", false, false, 3519, 3500, 0, 0, 0, "_null_", "_null_"⟩]

/-- DATA rows: min. -/
def pg_aggregate_rows_min : List FormData_pg_aggregate := [
  ⟨2131, 'n', 0, "int8smaller", "-", "int8smaller", "-", "-", "-", "-", "-", false, false, 412, 20, 0, 0, 0, "_null_", "_null_"⟩,
  ⟨2132, 'n', 0, "int4smaller", "-", "int4smaller", "-", "-", "-", "-", "-", false, false, 97, 23, 0, 0, 0, "_null_", "_null_"⟩,
  ⟨2133, 'n', 0, "int2smaller", "-", "int2smaller", "-", "-", "-", "-", "-", false, false, 95, 21, 0, 0, 0, "_null_", "_null_"⟩,
  ⟨2134, 'n', 0, "oidsmaller", "-", "oidsmaller", "-", "-", "-", "-", "-", false, false, 609, 26, 0, 0, 0, "_null_", "_null_"⟩,
  ⟨2135, 'n', 0, "float4smaller", "-", "float4smaller", "-", "-", "-", "-", "-", false, false, 622, 700, 0, 0, 0, "_null_", "_null_"⟩,
  ⟨2136, 'n', 0, "float8smaller", "-", "float8smaller", "-", "-", "-", "-", "-", false, false, 672, 701, 0, 0, 0, "_null_", "_null_"⟩,
  ⟨2137, 'n', 0, "int4smaller", "-", "int4smaller", "-", "-", "-", "-", "-", false, false, 562, 702, 0, 0, 0, "_null_", "_null_"⟩,
  ⟨2138, 'n', 0, "date_smaller", "-", "date_smaller", "-", "-", "-", "-", "-", false, false, 1095, 1082, 0, 0, 0, "_null_", "_null_"⟩,
  ⟨2139, 'n', 0, "time_smaller", "-", "time_smaller", "-", "-", "-", "-", "-", false, false, 1110, 1083, 0, 0, 0, "_null_", "_null_"⟩,
  ⟨2140, 'n', 0, "timetz_smaller", "-", "timetz_smaller", "-", "-", "-", "-", "-", false, false, 1552, 1266, 0, 0, 0, "_null_", "_null_"⟩,
  ⟨2141, 'n', 0, "cashsmaller", "-", "cashsmaller", "-", "-", "-", "-", "-", false, false, 902, 790, 0, 0, 0, "_null_", "_null_"⟩,
  ⟨2142, 'n', 0, "timestamp_smaller", "-", "timestamp_smaller", "-", "-", "-", "-", "-", false, false, 2062, 1114, 0, 0, 0, "_null_", "_null_"⟩,
  ⟨2143, 'n', 0, "timestamptz_smaller", "-", "timestamptz_smaller", "-", "-", "-", "-", "-", false, false, 1322, 1184, 0, 0, 0, "_null_", "_null_"⟩,
  ⟨2144, 'n', 0, "interval_smaller", "-", "interval_smaller", "-", "-", "-", "-", "-", false, false, 1332, 1186, 0, 0, 0, "_null_", "_null_"⟩,
  ⟨2145, 'n', 0, "text_smaller", "-", "text_smaller", "-", "-", "-", "-", "-", false, false, 664, 25, 0, 0, 0, "_null_", "_null_"⟩,
  ⟨2146, 'n', 0, "numeric_smaller", "-", "numeric_smaller", "-", "-", "-", "-", "-", false, false, 1754, 1700, 0, 0, 0, "_null_", "_null_"⟩,
  ⟨2051, 'n', 0, "array_smaller", "-", "array_smaller", "-", "-", "-", "-", "-", false, false, 1072, 2277, 0, 0, 0, "_null_", "_null_"⟩,
  ⟨2245, 'n', 0, "bpchar_smaller", "-", "bpchar_smaller", "-", "-", "-", "-", "-", false, false, 1058, 1042, 0, 0, 0, "_null_", "_null_"⟩,
  ⟨2798, 'n', 0, "tidsmaller", "-", "tidsmaller", "-", "-", "-", "-", "-", false, false, 2799, 27, 0, 0, 0, "_null_", "_null_"⟩,
  ⟨3527, 'n', 0, "enum_smaller", "-", "enum_smaller", "-", "-", "-", "-", "-", false, false, 3518, 3500, 0, 0, 0, "_null_", "_null_"⟩]

/-- DATA rows: count. -/
def pg_aggregate_rows_count : List FormData_pg_aggregate := [
  ⟨2147, 'n', 0, "int8inc_any", "-", "int8pl", "-", "-", "int8inc_any", "int8dec_any", "-", false, false, 0, 20, 0, 20, 0, "0", "0"⟩,
  ⟨2803, 'n', 0, "int8inc", "-", "int8pl", "-", "-", "int8inc", "int8dec", "-", false, false, 0, 20, 0, 20, 0, "0", "0"⟩]

/-- DATA rows: var_pop. -/
def pg_aggregate_rows_var_pop : List FormData_pg_aggregate := [
  ⟨2718, 'n', 0, "int8_accum", "numeric_var_pop", "numeric_combine", "numeric_serialize", "numeric_deserialize", "int8_accum", "int8_accum_inv", "numeric_var_pop", false, false, 0, 2281, 128, 2281, 128, "_null_", "_null_"⟩,
  ⟨2719, 'n', 0, "int4_accum", "numeric_poly_var_pop", "numeric_poly_combine", "numeric_poly_serialize", "numeric_poly_deserialize", "int4_accum", "int4_accum_inv", "numeric_poly_var_pop", false, false, 0, 2281, 48, 2281, 48, "_null_", "_null_"⟩,
  ⟨2720, 'n', 0, "int2_accum", "numeric_poly_var_pop", "numeric_poly_combine", "numeric_poly_serialize", "numeric_poly_deserialize", "int2_accum", "int2_accum_inv", "numeric_poly_var_pop", false, false, 0, 2281, 48, 2281, 48, "_null_", "_null_"⟩,
  ⟨2721, 'n', 0, "float4_accum", "float8_var_pop", "float8_combine", "-", "-", "-", "-", "-", false, false, 0, 1022, 0, 0, 0, "\x7b0,0,0\x7d", "_null_"⟩,
  ⟨2722, 'n', 0, "float8_accum", "float8_var_pop", "float8_combine", "-", "-", "-", "-", "-", false, false, 0, 1022, 0, 0, 0, "\x7b0,0,0\x7d", "_null_"⟩,
  ⟨2723, 'n', 0, "numeric_accum", "numeric_var_pop", "numeric_combine", "numeric_serialize", "numeric_deserialize", "numeric_accum", "numeric_accum_inv", "numeric_var_pop", false, false, 0, 2281, 128, 2281, 128, "_null_", "_null_"⟩]

/-- DATA rows: var_samp. -/
def pg_aggregate_rows_var_samp : List FormData_pg_aggregate := [
  ⟨2641, 'n', 0, "int8_accum", "numeric_var_samp", "numeric_combine", "numeric_serialize", "numeric_deserialize", "int8_accum", "int8_accum_inv", "numeric_var_samp", false, false, 0, 2281, 128, 2281, 128, "_null_", "_null_"⟩,
  ⟨2642, 'n', 0, "int4_accum", "numeric_poly_var_samp", "numeric_poly_combine", "numeric_poly_serialize", "numeric_poly_deserialize", "int4_accum", "int4_accum_inv", "numeric_poly_var_samp", false, false, 0, 2281, 48, 2281, 48, "_null_", "_null_"⟩,
  ⟨2643, 'n', 0, "int2_accum", "numeric_poly_var_samp", "numeric_poly_combine", "numeric_poly_serialize", "numeric_poly_deserialize", "int2_accum", "int2_accum_inv", "numeric_poly_var_samp", false, false, 0, 2281, 48, 2281, 48, "_null_", "_null_"⟩,
  ⟨2644, 'n', 0, "float4_accum", "float8_var_samp", "float8_combine", "-", "-", "-", "-", "-", false, false, 0, 1022, 0, 0, 0, "\x7b0,0,0\x7d", "_null_"⟩,
  ⟨2645, 'n', 0, "float8_accum", "float8_var_samp", "float8_combine", "-", "-", "-", "-", "-", false, false, 0, 1022, 0, 0, 0, "\x7b0,0,0\x7d", "_null_"⟩,
  ⟨2646, 'n', 0, "numeric_accum", "numeric_var_samp", "numeric_combine", "numeric_serialize", "numeric_deserialize", "numeric_accum", "numeric_accum_inv", "numeric_var_samp", false, false, 0, 2281, 128, 2281, 128, "_null_", "_null_"⟩]

/-- DATA rows: variance: historical Postgres syntax for var_samp. -/
def pg_aggregate_rows_variance : List FormData_pg_aggregate := [
  ⟨2148, 'n', 0, "int8_accum", "numeric_var_samp", "numeric_combine", "numeric_serialize", "numeric_deserialize", "int8_accum", "int8_accum_inv", "numeric_var_samp", false, false, 0, 2281, 128, 2281, 128, "_null_", "_null_"⟩,
  ⟨2149, 'n', 0, "int4_accum", "numeric_poly_var_samp", "numeric_poly_combine", "numeric_poly_serialize", "numeric_poly_deserialize", "int4_accum", "int4_accum_inv", "numeric_poly_var_samp", false, false, 0, 2281, 48, 2281, 48, "_null_", "_null_"⟩,
  ⟨2150, 'n', 0, "int2_accum", "numeric_poly_var_samp", "numeric_poly_combine", "numeric_poly_serialize", "numeric_poly_deserialize", "int2_accum", "int2_accum_inv", "numeric_poly_var_samp", false, false, 0, 2281, 48, 2281, 48, "_null_", "_null_"⟩,
  ⟨2151, 'n', 0, "float4_accum", "float8_var_samp", "float8_combine", "-", "-", "-", "-", "-", false, false, 0, 1022, 0, 0, 0, "\x7b0,0,0\x7d", "_null_"⟩,
  ⟨2152, 'n', 0, "float8_accum", "float8_var_samp", "float8_combine", "-", "-", "-", "-", "-", false, false, 0, 1022, 0, 0, 0, "\x7b0,0,0\x7d", "_null_"⟩,
  ⟨2153, 'n', 0, "numeric_accum", "numeric_var_samp", "numeric_combine", "numeric_serialize", "numeric_deserialize", "numeric_accum", "numeric_accum_inv", "numeric_var_samp", false, false, 0, 2281, 128, 2281, 128, "_null_", "_null_"⟩]

/-- DATA rows: stddev_pop. -/
def pg_aggregate_rows_stddev_pop : List FormData_pg_aggregate := [
  ⟨2724, 'n', 0, "int8_accum", "numeric_stddev_pop", "numeric_combine", "numeric_serialize", "numeric_deserialize", "int8_accum", "int8_accum_inv", "numeric_stddev_pop", false, false, 0, 2281, 128, 2281, 128, "_null_", "_null_"⟩,
  ⟨2725, 'n', 0, "int4_accum", "numeric_poly_stddev_pop", "numeric_poly_combine", "numeric_poly_serialize", "numeric_poly_deserialize", "int4_accum", "int4_accum_inv", "numeric_poly_stddev_pop", false, false, 0, 2281, 48, 2281, 48, "_null_", "_null_"⟩,
  ⟨2726, 'n', 0, "int2_accum", "numeric_poly_stddev_pop", "numeric_poly_combine", "numeric_poly_serialize", "numeric_poly_deserialize", "int2_accum", "int2_accum_inv", "numeric_poly_stddev_pop", false, false, 0, 2281, 48, 2281, 48, "_null_", "_null_"⟩,
  ⟨2727, 'n', 0, "float4_accum", "float8_stddev_pop", "float8_combine", "-", "-", "-", "-", "-", false, false, 0, 1022, 0, 0, 0, "\x7b0,0,0\x7d", "_null_"⟩,
  ⟨2728, 'n', 0, "float8_accum", "float8_stddev_pop", "float8_combine", "-", "-", "-", "-", "-", false, false, 0, 1022, 0, 0, 0, "\x7b0,0,0\x7d", "_null_"⟩,
  ⟨2729, 'n', 0, "numeric_accum", "numeric_stddev_pop", "numeric_combine", "numeric_serialize", "numeric_deserialize", "numeric_accum", "numeric_accum_inv", "numeric_stddev_pop", false, false, 0, 2281, 128, 2281, 128, "_null_", "_null_"⟩]

/-- DATA rows: stddev_samp. -/
def pg_aggregate_rows_stddev_samp : List FormData_pg_aggregate := [
  ⟨2712, 'n', 0, "int8_accum", "numeric_stddev_samp", "numeric_combine", "numeric_serialize", "numeric_deserialize", "int8_accum", "int8_accum_inv", "numeric_stddev_samp", false, false, 0, 2281, 128, 2281, 128, "_null_", "_null_"⟩,
  ⟨2713, 'n', 0, "int4_accum", "numeric_poly_stddev_samp", "numeric_poly_combine", "numeric_poly_serialize", "numeric_poly_deserialize", "int4_accum", "int4_accum_inv", "numeric_poly_stddev_samp", false, false, 0, 2281, 48, 2281, 48, "_null_", "_null_"⟩,
  ⟨2714, 'n', 0, "int2_accum", "numeric_poly_stddev_samp", "numeric_poly_combine", "numeric_poly_serialize", "numeric_poly_deserialize", "int2_accum", "int2_accum_inv", "numeric_poly_stddev_samp", false, false, 0, 2281, 48, 2281, 48, "_null_", "_null_"⟩,
  ⟨2715, 'n', 0, "float4_accum", "float8_stddev_samp", "float8_combine", "-", "-", "-", "-", "-", false, false, 0, 1022, 0, 0, 0, "\x7b0,0,0\x7d", "_null_"⟩,
  ⟨2716, 'n', 0, "float8_accum", "float8_stddev_samp", "float8_combine", "-", "-", "-", "-", "-", false, false, 0, 1022, 0, 0, 0, "\x7b0,0,0\x7d", "_null_"⟩,
  ⟨2717, 'n', 0, "numeric_accum", "numeric_stddev_samp", "numeric_combine", "numeric_serialize", "numeric_deserialize", "numeric_accum", "numeric_accum_inv", "numeric_stddev_samp", false, false, 0, 2281, 128, 2281, 128, "_null_", "_null_"⟩]

/-- DATA rows: stddev: historical Postgres syntax for stddev_samp. -/
def pg_aggregate_rows_stddev : List FormData_pg_aggregate := [
  ⟨2154, 'n', 0, "int8_accum", "numeric_stddev_samp", "numeric_combine", "numeric_serialize", "numeric_deserialize", "int8_accum", "int8_accum_inv", "numeric_stddev_samp", false, false, 0, 2281, 128, 2281, 128, "_null_", "_null_"⟩,
  ⟨2155, 'n', 0, "int4_accum", "numeric_poly_stddev_samp", "numeric_poly_combine", "numeric_poly_serialize", "numeric_poly_deserialize", "int4_accum", "int4_accum_inv", "numeric_poly_stddev_samp", false, false, 0, 2281, 48, 2281, 48, "_null_", "_null_"⟩,
  ⟨2156, 'n', 0, "int2_accum", "numeric_poly_stddev_samp", "numeric_poly_combine", "numeric_poly_serialize", "numeric_poly_deserialize", "int2_accum", "int2_accum_inv", "numeric_poly_stddev_samp", false, false, 0, 2281, 48, 2281, 48, "_null_", "_null_"⟩,
  ⟨2157, 'n', 0, "float4_accum", "float8_stddev_samp", "float8_combine", "-", "-", "-", "-", "-", false, false, 0, 1022, 0, 0, 0, "\x7b0,0,0\x7d", "_null_"⟩,
  ⟨2158, 'n', 0, "float8_accum", "float8_stddev_samp", "float8_combine", "-", "-", "-", "-", "-", false, false, 0, 1022, 0, 0, 0, "\x7b0,0,0\x7d", "_null_"⟩,
  ⟨2159, 'n', 0, "numeric_accum", "numeric_stddev_samp", "numeric_combine", "numeric_serialize", "numeric_deserialize", "numeric_accum", "numeric_accum_inv", "numeric_stddev_samp", false, false, 0, 2281, 128, 2281, 128, "_null_", "_null_"⟩]

/-- DATA rows: SQL2003 binary regression aggregates. -/
def pg_aggregate_rows_regr : List FormData_pg_aggregate := [
  ⟨2818, 'n', 0, "int8inc_float8_float8", "-", "int8pl", "-", "-", "-", "-", "-", false, false, 0, 20, 0, 0, 0, "0", "_null_"⟩,
  ⟨2819, 'n', 0, "float8_regr_accum", "float8_regr_sxx", "float8_regr_combine", "-", "-", "-", "-", "-", false, false, 0, 1022, 0, 0, 0, "\x7b0,0,0,0,0,0\x7d", "_null_"⟩,
  ⟨2820, 'n', 0, "float8_regr_accum", "float8_regr_syy", "float8_regr_combine", "-", "-", "-", "-", "-", false, false, 0, 1022, 0, 0, 0, "\x7b0,0,0,0,0,0\x7d", "_null_"⟩,
  ⟨2821, 'n', 0, "float8_regr_accum", "float8_regr_sxy", "float8_regr_combine", "-", "-", "-", "-", "-", false, false, 0, 1022, 0, 0, 0, "\x7b0,0,0,0,0,0\x7d", "_null_"⟩,
  ⟨2822, 'n', 0, "float8_regr_accum", "float8_regr_avgx", "float8_regr_combine", "-", "-", "-", "-", "-", false, false, 0, 1022, 0, 0, 0, "\x7b0,0,0,0,0,0\x7d", "_null_"⟩,
  ⟨2823, 'n', 0, "float8_regr_accum", "float8_regr_avgy", "float8_regr_combine", "-", "-", "-", "-", "-", false, false, 0, 1022, 0, 0, 0, "\x7b0,0,0,0,0,0\x7d", "_null_"⟩,
  ⟨2824, 'n', 0, "float8_regr_accum", "float8_regr_r2", "float8_regr_combine", "-", "-", "-", "-", "-", false, false, 0, 1022, 0, 0, 0, "\x7b0,0,0,0,0,0\x7d", "_null_"⟩,
  ⟨2825, 'n', 0, "float8_regr_accum", "float8_regr_slope", "float8_regr_combine", "-", "-", "-", "-", "-", false, false, 0, 1022, 0, 0, 0, "\x7b0,0,0,0,0,0\x7d", "_null_"⟩,
  ⟨2826, 'n', 0, "float8_regr_accum", "float8_regr_intercept", "float8_regr_combine", "-", "-", "-", "-", "-", false, false, 0, 1022, 0, 0, 0, "\x7b0,0,0,0,0,0\x7d", "_null_"⟩,
  ⟨2827, 'n', 0, "float8_regr_accum", "float8_covar_pop", "float8_regr_combine", "-", "-", "-", "-", "-", false, false, 0, 1022, 0, 0, 0, "\x7b0,0,0,0,0,0\x7d", "_null_"⟩,
  ⟨2828, 'n', 0, "float8_regr_accum", "float8_covar_samp", "float8_regr_combine", "-", "-", "-", "-", "-", false, false, 0, 1022, 0, 0, 0, "\x7b0,0,0,0,0,0\x7d", "_null_"⟩,
  ⟨2829, 'n', 0, "float8_regr_accum", "float8_corr", "float8_regr_combine", "-", "-", "-", "-", "-", false, false, 0, 1022, 0, 0, 0, "\x7b0,0,0,0,0,0\x7d", "_null_"⟩]

/-- DATA rows: boolean-and and boolean-or. -/
def pg_aggregate_rows_bool : List FormData_pg_aggregate := [
  ⟨2517, 'n', 0, "booland_statefunc", "-", "booland_statefunc", "-", "-", "bool_accum", "bool_accum_inv", "bool_alltrue", false, false, 58, 16, 0, 2281, 16, "_null_", "_null_"⟩,
  ⟨2518, 'n', 0, "boolor_statefunc", "-", "boolor_statefunc", "-", "-", "bool_accum", "bool_accum_inv", "bool_anytrue", false, false, 59, 16, 0, 2281, 16, "_null_", "_null_"⟩,
  ⟨2519, 'n', 0, "booland_statefunc", "-", "booland_statefunc", "-", "-", "bool_accum", "bool_accum_inv", "bool_alltrue", false, false, 58, 16, 0, 2281, 16, "_null_", "_null_"⟩]

/-- DATA rows: bitwise integer. -/
def pg_aggregate_rows_bit : List FormData_pg_aggregate := [
  ⟨2236, 'n', 0, "int2and", "-", "int2and", "-", "-", "-", "-", "-", false, false, 0, 21, 0, 0, 0, "_null_", "_null_"⟩,
  ⟨2237, 'n', 0, "int2or", "-", "int2or", "-", "-", "-", "-", "-", false, false, 0, 21, 0, 0, 0, "_null_", "_null_"⟩,
  ⟨2238, 'n', 0, "int4and", "-", "int4and", "-", "-", "-", "-", "-", false, false, 0, 23, 0, 0, 0, "_null_", "_null_"⟩,
  ⟨2239, 'n', 0, "int4or", "-", "int4or", "-", "-", "-", "-", "-", false, false, 0, 23, 0, 0, 0, "_null_", "_null_"⟩,
  ⟨2240, 'n', 0, "int8and", "-", "int8and", "-", "-", "-", "-", "-", false, false, 0, 20, 0, 0, 0, "_null_", "_null_"⟩,
  ⟨2241, 'n', 0, "int8or", "-", "int8or", "-", "-", "-", "-", "-", false, false, 0, 20, 0, 0, 0, "_null_", "_null_"⟩,
  ⟨2242, 'n', 0, "bitand", "-", "bitand", "-", "-", "-", "-", "-", false, false, 0, 1560, 0, 0, 0, "_null_", "_null_"⟩,
  ⟨2243, 'n', 0, "bitor", "-", "bitor", "-", "-", "-", "-", "-", false, false, 0, 1560, 0, 0, 0, "_null_", "_null_"⟩]

/-- DATA rows: array_sum, sum(array), pivot_sum, xml, array_agg. -/
def pg_aggregate_rows_misc : List FormData_pg_aggregate := [
  ⟨6013, 'n', 0, "array_add", "-", "array_add", "-", "-", "-", "-", "-", false, false, 0, 1007, 0, 0, 0, "\x7b\x7d", "_null_"⟩,
  ⟨6216, 'n', 0, "int2_matrix_accum", "-", "int8_matrix_accum", "-", "-", "-", "-", "-", false, false, 0, 1016, 0, 0, 0, "_null_", "_null_"⟩,
  ⟨6217, 'n', 0, "int4_matrix_accum", "-", "int8_matrix_accum", "-", "-", "-", "-", "-", false, false, 0, 1016, 0, 0, 0, "_null_", "_null_"⟩,
  ⟨6218, 'n', 0, "int8_matrix_accum", "-", "int8_matrix_accum", "-", "-", "-", "-", "-", false, false, 0, 1016, 0, 0, 0, "_null_", "_null_"⟩,
  ⟨6219, 'n', 0, "float8_matrix_accum", "-", "float8_matrix_accum", "-", "-", "-", "-", "-", false, false, 0, 1022, 0, 0, 0, "_null_", "_null_"⟩,
  ⟨6226, 'n', 0, "int4_pivot_accum", "-", "int8_matrix_accum", "-", "-", "-", "-", "-", false, false, 0, 1007, 0, 0, 0, "_null_", "_null_"⟩,
  ⟨6228, 'n', 0, "int8_pivot_accum", "-", "int8_matrix_accum", "-", "-", "-", "-", "-", false, false, 0, 1016, 0, 0, 0, "_null_", "_null_"⟩,
  ⟨6230, 'n', 0, "float8_pivot_accum", "-", "float8_matrix_accum", "-", "-", "-", "-", "-", false, false, 0, 1022, 0, 0, 0, "_null_", "_null_"⟩,
  ⟨2901, 'n', 0, "xmlconcat2", "-", "-", "-", "-", "-", "-", "-", false, false, 0, 142, 0, 0, 0, "_null_", "_null_"⟩,
  ⟨2335, 'n', 0, "array_agg_transfn", "array_agg_finalfn", "-", "-", "-", "-", "-", "-", true, false, 0, 2281, 0, 0, 0, "_null_", "_null_"⟩]

/-- DATA rows: ordered-set and hypothetical-set aggregates. -/
def pg_aggregate_rows_ordered_set : List FormData_pg_aggregate := [
  ⟨3972, 'o', 1, "ordered_set_transition", "percentile_disc_final", "-", "-", "-", "-", "-", "-", true, false, 0, 2281, 0, 0, 0, "_null_", "_null_"⟩,
  ⟨3974, 'o', 1, "ordered_set_transition", "percentile_cont_float8_final", "-", "-", "-", "-", "-", "-", false, false, 0, 2281, 0, 0, 0, "_null_", "_null_"⟩,
  ⟨3976, 'o', 1, "ordered_set_transition", "percentile_cont_interval_final", "-", "-", "-", "-", "-", "-", false, false, 0, 2281, 0, 0, 0, "_null_", "_null_"⟩,
  ⟨3978, 'o', 1, "ordered_set_transition", "percentile_disc_multi_final", "-", "-", "-", "-", "-", "-", true, false, 0, 2281, 0, 0, 0, "_null_", "_null_"⟩,
  ⟨3980, 'o', 1, "ordered_set_transition", "percentile_cont_float8_multi_final", "-", "-", "-", "-", "-", "-", false, false, 0, 2281, 0, 0, 0, "_null_", "_null_"⟩,
  ⟨3982, 'o', 1, "ordered_set_transition", "percentile_cont_interval_multi_final", "-", "-", "-", "-", "-", "-", false, false, 0, 2281, 0, 0, 0, "_null_", "_null_"⟩,
  ⟨3984, 'o', 0, "ordered_set_transition", "mode_final", "-", "-", "-", "-", "-", "-", true, false, 0, 2281, 0, 0, 0, "_null_", "_null_"⟩,
  ⟨3986, 'h', 1, "ordered_set_transition_multi", "rank_final", "-", "-", "-", "-", "-", "-", true, false, 0, 2281, 0, 0, 0, "_null_", "_null_"⟩,
  ⟨3988, 'h', 1, "ordered_set_transition_multi", "percent_rank_final", "-", "-", "-", "-", "-", "-", true, false, 0, 2281, 0, 0, 0, "_null_", "_null_"⟩,
  ⟨3990, 'h', 1, "ordered_set_transition_multi", "cume_dist_final", "-", "-", "-", "-", "-", "-", true, false, 0, 2281, 0, 0, 0, "_null_", "_null_"⟩,
  ⟨3992, 'h', 1, "ordered_set_transition_multi", "dense_rank_final", "-", "-", "-", "-", "-", "-", true, false, 0, 2281, 0, 0, 0, "_null_", "_null_"⟩]

/-- DATA rows: GPDB: additional variants of percentile_cont, for timestamps. -/
def pg_aggregate_rows_gpdb_percentile : List FormData_pg_aggregate := [
  ⟨6119, 'o', 1, "ordered_set_transition", "percentile_cont_timestamp_final", "-", "-", "-", "-", "-", "-", false, false, 0, 2281, 0, 0, 0, "_null_", "_null_"⟩,
  ⟨6121, 'o', 1, "ordered_set_transition", "percentile_cont_timestamp_multi_final", "-", "-", "-", "-", "-", "-", false, false, 0, 2281, 0, 0, 0, "_null_", "_null_"⟩,
  ⟨6123, 'o', 1, "ordered_set_transition", "percentile_cont_timestamptz_final", "-", "-", "-", "-", "-", "-", false, false, 0, 2281, 0, 0, 0, "_null_", "_null_"⟩,
  ⟨6125, 'o', 1, "ordered_set_transition", "percentile_cont_timestamptz_multi_final", "-", "-", "-", "-", "-", "-", false, false, 0, 2281, 0, 0, 0, "_null_", "_null_"⟩]

/-- DATA rows: median. -/
def pg_aggregate_rows_median : List FormData_pg_aggregate := [
  ⟨6127, 'o', 1, "ordered_set_transition", "percentile_cont_float8_final", "-", "-", "-", "-", "-", "-", false, false, 0, 2281, 0, 0, 0, "_null_", "_null_"⟩,
  ⟨6128, 'o', 1, "ordered_set_transition", "percentile_cont_interval_final", "-", "-", "-", "-", "-", "-", false, false, 0, 2281, 0, 0, 0, "_null_", "_null_"⟩,
  ⟨6129, 'o', 1, "ordered_set_transition", "percentile_cont_timestamp_final", "-", "-", "-", "-", "-", "-", false, false, 0, 2281, 0, 0, 0, "_null_", "_null_"⟩,
  ⟨6130, 'o', 1, "ordered_set_transition", "percentile_cont_timestamptz_final", "-", "-", "-", "-", "-", "-", false, false, 0, 2281, 0, 0, 0, "_null_", "_null_"⟩]

/-- DATA rows: text, bytea, hyperloglog, json. -/
def pg_aggregate_rows_tail : List FormData_pg_aggregate := [
  ⟨3538, 'n', 0, "string_agg_transfn", "string_agg_finalfn", "-", "-", "-", "-", "-", "-", false, false, 0, 2281, 0, 0, 0, "_null_", "_null_"⟩,
  ⟨3545, 'n', 0, "bytea_string_agg_transfn", "bytea_string_agg_finalfn", "-", "-", "-", "-", "-", "-", false, false, 0, 2281, 0, 0, 0, "_null_", "_null_"⟩,
  ⟨7164, 'n', 0, "gp_hyperloglog_add_item_agg_default", "gp_hyperloglog_comp", "gp_hyperloglog_merge", "-", "-", "-", "-", "-", false, false, 0, 7157, 0, 0, 0, "_null_", "_null_"⟩,
  ⟨3175, 'n', 0, "json_agg_transfn", "json_agg_finalfn", "-", "-", "-", "-", "-", "-", false, false, 0, 2281, 0, 0, 0, "_null_", "_null_"⟩,
  ⟨3197, 'n', 0, "json_object_agg_transfn", "json_object_agg_finalfn", "-", "-", "-", "-", "-", "-", false, false, 0, 2281, 0, 0, 0, "_null_", "_null_"⟩]

/-- Initial contents of `pg_aggregate`: all DATA rows of the header, in
source order. -/
def pg_aggregate_data : List FormData_pg_aggregate :=
  pg_aggregate_rows_avg ++ pg_aggregate_rows_sum ++ pg_aggregate_rows_max ++ pg_aggregate_rows_min ++ pg_aggregate_rows_count ++ pg_aggregate_rows_var_pop ++ pg_aggregate_rows_var_samp ++ pg_aggregate_rows_variance ++ pg_aggregate_rows_stddev_pop ++ pg_aggregate_rows_stddev_samp ++ pg_aggregate_rows_stddev ++ pg_aggregate_rows_regr ++ pg_aggregate_rows_bool ++ pg_aggregate_rows_bit ++ pg_aggregate_rows_misc ++ pg_aggregate_rows_ordered_set ++ pg_aggregate_rows_gpdb_percentile ++ pg_aggregate_rows_median ++ pg_aggregate_rows_tail

/-- The `internal` pseudo-type OID used as opaque transition-state type. -/
def INTERNALOID : Nat := 2281

/-- Modelled from the spec: 64-bit two's-complement normalisation, the value
range of the `int8` transition state.  The bodies of the callbacks the
catalog references by name (`int8inc`, `int8pl`, `int4larger`) are not part
of this source tree, so they are modelled from the spec's description. -/
def wrap64 (x : Int) : Int :=
  (x + 9223372036854775808) % 18446744073709551616 - 9223372036854775808

/-- Modelled from the spec: `int8inc`, the COUNT transition function,
increments the int8 transition state by 1 per input row. -/
def int8inc (s : Int) : Int := wrap64 (s + 1)

/-- Modelled from the spec: `int8pl`, the COUNT combine function, 64-bit
integer addition on int8 transition states. -/
def int8pl (a b : Int) : Int := wrap64 (a + b)

/-- Modelled from the spec: `int4larger`, the MAX transition function,
returns the greater of its two arguments. -/
def int4larger (a b : Int) : Int := max a b

/-- Spec section 4.1: advancing a MAX-style transition state.  With no
initial value the state starts unseeded (`none`) and the first input row
both seeds and transitions in one step; later rows go through the
transition function `int4larger`. -/
def advanceMax (s : Option Int) (x : Int) : Option Int :=
  match s with
  | none => some x
  | some v => some (int4larger v x)

/-- Sequential COUNT aggregation over `n` input rows, per catalog row 2803:
the initial state is the literal `"0"`, each row advances the state through
`int8inc`, and with no final function the raw state is the result. -/
def countSequential (n : Nat) : Int :=
  (List.replicate n ()).foldl (fun s _ => int8inc s) 0

/-- Parallel COUNT aggregation, spec section 4.3: each partition is
aggregated independently by the Sequential path, and the reducer folds the
partial states through the combine function `int8pl`, starting from the
initial state `"0"`. -/
def countParallel (parts : List Nat) : Int :=
  (parts.map countSequential).foldl int8pl 0

instance : RightCommutative advanceMax :=
  ⟨fun b a₁ a₂ => by
    cases b with
    | none => simp [advanceMax, int4larger, max_comm]
    | some v => simpa [advanceMax, int4larger] using sup_right_comm v a₁ a₂⟩

/-- Re-normalising the left addend of a 64-bit sum does not change it. -/
theorem wrap64_add_left (x y : Int) : wrap64 (wrap64 x + y) = wrap64 (x + y) := by
  unfold wrap64
  omega

/-- Re-normalising the right addend of a 64-bit sum does not change it. -/
theorem wrap64_add_right (x y : Int) : wrap64 (x + wrap64 y) = wrap64 (x + y) := by
  unfold wrap64
  omega

/-- Advancing the COUNT state row by row adds the row count, as long as the
running count stays inside the int8 range. -/
theorem count_foldl_eq (n : Nat) : ∀ s : Int, 0 ≤ s →
    s + n < 9223372036854775808 →
    (List.replicate n ()).foldl (fun t _ => int8inc t) s = s + n := by
  induction n with
  | zero => intro s _ _; simp
  | succ k ih =>
      intro s hs hlt
      rw [List.replicate_succ, List.foldl_cons]
      have hstep : int8inc s = s + 1 := by
        unfold int8inc wrap64
        omega
      rw [hstep, ih (s + 1) (by omega) (by push_cast at hlt ⊢; omega)]
      push_cast
      ring

/-- Sequential COUNT over `n` rows yields `n` whenever `n` is inside the
int8 range. -/
theorem countSequential_eq (n : Nat) (h : (n : Int) < 9223372036854775808) :
    countSequential n = n := by
  unfold countSequential
  rw [count_foldl_eq n 0 le_rfl (by omega)]
  simp

/-- C1 fails on the catalog as stated: row 3984 (`mode`) has kind
OrderedSet (`'o'`) yet `aggnumdirectargs = 0`, so `numDirectArgs == 0` does
not imply `kind == Normal`, and an OrderedSet row does have
`aggnumdirectargs = 0`. -/
theorem c1_ordered_set_row_with_zero_direct_args :
    ∃ r ∈ pg_aggregate_data, r.aggfnoid = 3984 ∧
      r.aggkind = AGGKIND_ORDERED_SET ∧ r.aggnumdirectargs = 0 := by
  decide

/-- C1 (amended): every Normal-kind catalog row has `aggnumdirectargs = 0`,
and the only row of OrderedSet or Hypothetical kind with
`aggnumdirectargs = 0` is row 3984 (`mode`). -/
theorem c1_normal_rows_have_zero_direct_args :
    pg_aggregate_data.all (fun r =>
      (AGGKIND_IS_ORDERED_SET r.aggkind || (r.aggnumdirectargs == 0)) &&
      (!((r.aggnumdirectargs == 0) && AGGKIND_IS_ORDERED_SET r.aggkind) ||
        (r.aggfnoid == 3984))) = true := by
  decide

/-- C2 fails on the catalog as stated: the COUNT row 2147 declares
`aggmtransfn` (`int8inc_any`) and `aggminvtransfn` (`int8dec_any`) but no
`aggmfinalfn`, a partial moving-window callback set. -/
theorem c2_count_row_partial_moving_set :
    ∃ r ∈ pg_aggregate_data, r.aggfnoid = 2147 ∧
      regprocPresent r.aggmtransfn = true ∧
      regprocPresent r.aggminvtransfn = true ∧
      regprocPresent r.aggmfinalfn = false := by
  decide

/-- C2 (amended): `aggmtransfn` and `aggminvtransfn` are both present or
both absent on every catalog row, and `aggmfinalfn` appears only on rows
where they are present; the moving final function may however be absent
while the other two are present (rows 2112, 2113, 2147, 2803). -/
theorem c2_moving_transition_pair_all_or_none :
    pg_aggregate_data.all (fun r =>
      (regprocPresent r.aggmtransfn == regprocPresent r.aggminvtransfn) &&
      (!(regprocPresent r.aggmfinalfn) || regprocPresent r.aggmtransfn)) = true := by
  decide

/-- C3 fails on the catalog: no row at all has `aggmtransfn` present while
`aggminvtransfn` is absent (this is the negation of the claimed
existence). -/
theorem c3_no_row_has_mtrans_without_minv :
    pg_aggregate_data.all (fun r =>
      !(regprocPresent r.aggmtransfn) || regprocPresent r.aggminvtransfn) = true := by
  decide

/-- C3 (amended): every catalog row with `aggmtransfn` present also has
`aggminvtransfn` present, and in particular the bitwise AND/OR aggregates
(rows 2236-2243) declare no moving-window callbacks at all. -/
theorem c3_bitwise_rows_have_no_moving_fns :
    pg_aggregate_data.all (fun r =>
      (!(regprocPresent r.aggmtransfn) || regprocPresent r.aggminvtransfn) &&
      (!([2236, 2237, 2238, 2239, 2240, 2241, 2242, 2243].contains r.aggfnoid) ||
        (!(regprocPresent r.aggmtransfn) && !(regprocPresent r.aggminvtransfn) &&
         !(regprocPresent r.aggmfinalfn)))) = true := by
  decide

/-- C4: a COUNT-style aggregate (int8 state, transition `int8inc`, combine
`int8pl`, no final function so the raw state is the result) over 1,000
input rows split into 4 partitions of 250, combined and finalized, yields
1000 — the same result as Sequential aggregation over all 1,000 rows. -/
theorem c4_count_partition_invariance :
    countParallel [250, 250, 250, 250] = countSequential 1000 ∧
    countSequential 1000 = 1000 := by
  have h250 : countSequential 250 = 250 := countSequential_eq 250 (by norm_num)
  have h1000 : countSequential 1000 = 1000 := countSequential_eq 1000 (by norm_num)
  refine ⟨?_, h1000⟩
  unfold countParallel
  simp only [List.map_cons, List.map_nil, List.foldl_cons, List.foldl_nil]
  rw [h250, h1000]
  decide

/-- C5: the combine function `int8pl` of the COUNT aggregates (64-bit
integer addition) is associative on all transition states. -/
theorem c5_int8pl_assoc (a b c : Int) :
    int8pl (int8pl a b) c = int8pl a (int8pl b c) := by
  unfold int8pl
  rw [wrap64_add_left, wrap64_add_right, add_assoc]

/-- C6: a MAX-style aggregate (transition `int4larger`, unseeded initial
state so the first input seeds the state, no final function so the raw
state is the result) delivered any permutation of `[3,1,4,1,5,9,2,6]`
finalizes to 9. -/
theorem c6_max_delivery_order_invariant (l : List Int)
    (h : l.Perm [3, 1, 4, 1, 5, 9, 2, 6]) :
    l.foldl advanceMax none = some 9 := by
  rw [h.foldl_eq none]
  decide

/-- C6 witness: the aggregate applied to the reversed delivery order. -/
theorem c6_max_delivery_order_invariant_witness :
    [6, 2, 9, 5, 1, 4, 1, 3].foldl advanceMax none = some 9 :=
  c6_max_delivery_order_invariant [6, 2, 9, 5, 1, 4, 1, 3] (by decide)

/-- C7: on every catalog row the serialize and deserialize functions are
both present or both absent. -/
theorem c7_serialize_deserialize_paired :
    pg_aggregate_data.all (fun r =>
      regprocPresent r.aggserialfn == regprocPresent r.aggdeserialfn) = true := by
  decide

/-- C8: every catalog row that declares a serialize or deserialize function
has the opaque `internal` transition state type (OID 2281); no row with a
plain value state type declares either. -/
theorem c8_serialize_requires_internal_state :
    pg_aggregate_data.all (fun r =>
      !(regprocPresent r.aggserialfn || regprocPresent r.aggdeserialfn) ||
        (r.aggtranstype == INTERNALOID)) = true := by
  decide

/-- C9: every OrderedSet or Hypothetical catalog row (per the source test
`AGGKIND_IS_ORDERED_SET`) declares no combine function, no
serialize/deserialize functions and no moving-window callbacks. -/
theorem c9_ordered_set_rows_have_no_parallel_or_moving_fns :
    pg_aggregate_data.all (fun r =>
      !(AGGKIND_IS_ORDERED_SET r.aggkind) ||
        (!(regprocPresent r.aggcombinefn) && !(regprocPresent r.aggserialfn) &&
         !(regprocPresent r.aggdeserialfn) && !(regprocPresent r.aggmtransfn) &&
         !(regprocPresent r.aggminvtransfn) && !(regprocPresent r.aggmfinalfn))) = true := by
  decide

/-- C10: on every catalog row a moving-window state type is declared
exactly when a moving transition function is (`aggmtranstype` nonzero iff
`aggmtransfn` present), and a moving initial value appears only on rows
with a moving transition function. -/
theorem c10_moving_state_type_iff_moving_transition :
    pg_aggregate_data.all (fun r =>
      ((r.aggmtranstype != 0) == regprocPresent r.aggmtransfn) &&
      (!(initvalPresent r.aggminitval) || regprocPresent r.aggmtransfn)) = true := by
  decide
